import Mathlib

/-!
Verification of the `mdconvwk` HTML-to-Markdown conversion service
(`src/index.ts`): the `GET /html` request handler, its validation and
gating pipeline, and the error taxonomy that maps every failure mode to
an HTTP status and message.

The handler is embedded as a pure function over an environment of
collaborator oracles (URL parser, Fetcher, Markdown Converter), with the
short-circuiting try/catch control flow expressed by an `Except` pipeline.
-/

namespace Mdconvwk

/-- Result of the JS `new URL(s)` constructor: `protocol` keeps the
trailing colon (`"https:"`), as in the WHATWG URL API used by
`isValidUrl` in `src/index.ts`. -/
structure URLRecord where
  protocol : String
  hostname : String
deriving DecidableEq, Repr

/-- A JS exception as the handler's catch block discriminates it:
whether it is a `DOMException` instance, and its `name` property.
Mirrors `error instanceof DOMException && error.name === "AbortError"`
in `src/index.ts` line 79. -/
structure JSError where
  isDOMException : Bool
  name : String
deriving DecidableEq, Repr

/-- The parts of a Fetcher (`fetch`) response read by the handler:
`ok`, `status`, `statusText`, `headers.get("Content-Type")`
(`none` when the header is absent), and the decoded body text
from `await resp.text()`. -/
structure FetchResponse where
  ok : Bool
  status : Nat
  statusText : String
  contentType : Option String
  bodyText : String
deriving DecidableEq, Repr

/-- One element of the document sequence passed to `c.env.AI.toMarkdown`
in `src/index.ts` lines 53-58: a derived name plus a blob with the
fetched body and its declared content type. -/
structure ConversionInput where
  name : String
  blobContent : String
  blobType : String
deriving DecidableEq, Repr

/-- One element of the Markdown Converter's output sequence; the handler
reads only the `data` field (`markdown[0].data`). -/
structure ConversionDoc where
  data : String
deriving DecidableEq, Repr

/-- Environment of external collaborators the handler invokes:
the JS URL parser (`new URL`, `none` models the constructor throwing),
the Fetcher (`fetch`, `Except.error` models a rejected promise), and the
Markdown Converter (`toMarkdown`; `Except.error` models a rejection,
`Except.ok none` models a `null`/`undefined` result). -/
structure Env where
  parseURL : String → Option URLRecord
  fetch : String → Except JSError FetchResponse
  toMarkdown : List ConversionInput → Except JSError (Option (List ConversionDoc))

/-- `isValidUrl` from `src/index.ts` lines 116-123: parse the string as
a URL, return true iff parsing succeeds and the protocol is `http:` or
`https:`; a parse failure (caught exception) yields false. -/
def isValidUrl (parseURL : String → Option URLRecord) (urlString : String) : Bool :=
  match parseURL urlString with
  | some url => url.protocol == "http:" || url.protocol == "https:"
  | none => false

/-- An error escaping the handler's try block: either an
`HTTPException` thrown by the pipeline itself (status, message) or a
JS exception from a collaborator. -/
inductive TryError where
  | http (status : Nat) (message : String)
  | js (e : JSError)
deriving DecidableEq, Repr

/-- The success response as observed by a client: status, body text and
the two headers the claims speak about. -/
structure OkResponse where
  status : Nat
  body : String
  contentType : String
  cacheControl : String
deriving DecidableEq, Repr

/-- Observable outcome of one request to `GET /html`: a success
response, or the JSON error body `{error, status}` produced by the
`app.onError` mapper from the thrown `HTTPException`. -/
inductive HandlerResult where
  | success (r : OkResponse)
  | error (status : Nat) (message : String)
deriving DecidableEq, Repr

/-- JS `String.prototype.includes` restricted to what the handler needs:
case-sensitive containment of `sub` in `s` (exact code-unit match, no
case folding), written as a list scan. -/
def leadsList : List Char → List Char → Bool
  | [], _ => true
  | _ :: _, [] => false
  | a :: as, b :: bs => a == b && leadsList as bs

/-- Helper for `jsIncludes`: does `needle` occur starting at some
position of the haystack list? -/
def containsAt : List Char → List Char → Bool
  | needle, [] => needle.isEmpty
  | needle, h :: t => leadsList needle (h :: t) || containsAt needle t

/-- The content-type check `contentType.includes("text/html")` of
`src/index.ts` line 37: case-sensitive substring containment. -/
def jsIncludes (s sub : String) : Bool :=
  containsAt sub.data s.data

/-- Lower-casing of a string (used only to state the case-sensitivity
claim about the content-type gate). -/
def lowerStr (s : String) : String :=
  String.mk (s.data.map Char.toLower)

/-- The size limit of `src/index.ts` line 46: `10 * 1024 * 1024`
characters of decoded body text. -/
def SIZE_LIMIT : Nat := 10 * 1024 * 1024

/-- The document name submitted to the converter,
`new URL(urlParam).hostname + ".html"` (`src/index.ts` line 55). The
handler only builds it after `isValidUrl` succeeded, so the parse is
total there; the `getD ""` default is unreachable on that path. -/
def docName (env : Env) (urlParam : String) : String :=
  ((env.parseURL urlParam).map URLRecord.hostname).getD "" ++ ".html"

/-- Modelled from the Hono framework's `c.text`: the framework fixes the
response Content-Type to `"text/plain; charset=UTF-8"`, overriding any
Content-Type entry in the header record supplied by the caller, while
other supplied headers (Cache-Control) are kept. The repository's own
test ("should successfully convert HTML to Markdown",
`src/index.test.ts`) pins exactly this observable behavior: the handler
passes `"Content-Type": "text/markdown; charset=utf-8"` yet the test
asserts the response header equals `"text/plain; charset=UTF-8"`. -/
def cText (content : String) (_headerContentType headerCacheControl : String) : OkResponse :=
  { status := 200
    body := content
    contentType := "text/plain; charset=UTF-8"
    cacheControl := headerCacheControl }

/-- Conversion stage (`src/index.ts` lines 52-73): submit the one-element
document sequence to the converter; a `null`/`undefined` or empty result
is a 500 `ConversionFailed` error; otherwise respond via `c.text` with
element 0's `data` and the fixed headers. A converter rejection
propagates as a JS error to the catch block. -/
def conversionStage (env : Env) (urlParam ct body : String) :
    Except TryError OkResponse :=
  match env.toMarkdown [⟨docName env urlParam, body, ct⟩] with
  | .error e => .error (.js e)
  | .ok none => .error (.http 500 "Failed to convert HTML to Markdown")
  | .ok (some []) => .error (.http 500 "Failed to convert HTML to Markdown")
  | .ok (some (d :: _)) =>
      .ok (cText d.data "text/markdown; charset=utf-8"
        "public, max-age=3600, s-maxage=86400")

/-- Size gate (`src/index.ts` lines 43-50): fail with 413 when the
decoded body text length exceeds `SIZE_LIMIT`, else proceed to
conversion. -/
def sizeStage (env : Env) (urlParam ct body : String) :
    Except TryError OkResponse :=
  if body.length > SIZE_LIMIT then
    .error (.http 413 "Content too large. Maximum size is 10MB")
  else
    conversionStage env urlParam ct body

/-- Stages after a resolved fetch (`src/index.ts` lines 28-41): the
upstream-status check (`!resp.ok` → `UpstreamError` with the upstream
status and `"Failed to fetch <url>: <statusText>"`), then the
content-type gate (absent header or no `"text/html"` substring → 400),
then the size gate. -/
def afterFetch (env : Env) (urlParam : String) (resp : FetchResponse) :
    Except TryError OkResponse :=
  if resp.ok = false then
    .error (.http resp.status
      ("Failed to fetch " ++ urlParam ++ ": " ++ resp.statusText))
  else
    match resp.contentType with
    | none => .error (.http 400 "Only HTML content is supported")
    | some ct =>
        if jsIncludes ct "text/html" = false then
          .error (.http 400 "Only HTML content is supported")
        else
          sizeStage env urlParam ct resp.bodyText

/-- Body of the handler's try block (`src/index.ts` lines 25-73):
await the fetch (a rejection becomes a JS error for the catch block),
then run the post-fetch stages. -/
def tryBody (env : Env) (urlParam : String) : Except TryError OkResponse :=
  match env.fetch urlParam with
  | .error e => .error (.js e)
  | .ok resp => afterFetch env urlParam resp

/-- The catch block of `src/index.ts` lines 74-87 composed with the
`app.onError` mapper: an `HTTPException` is rethrown and surfaced as its
own (status, message); a `DOMException` named `"AbortError"` becomes
504 "Request timeout"; any other exception becomes 500
"Internal server error while processing request". -/
def runCatch : Except TryError OkResponse → HandlerResult
  | .ok r => .success r
  | .error (.http s m) => .error s m
  | .error (.js e) =>
      if e.isDOMException && e.name == "AbortError" then
        .error 504 "Request timeout"
      else
        .error 500 "Internal server error while processing request"

/-- The `GET /html` handler (`src/index.ts` lines 11-88): parameter
presence check (`!urlParam` is true for a missing parameter and for the
empty string), URL validation, then the fetched/gated/converted pipeline
under the try/catch. -/
def handleHtml (env : Env) (urlParam : Option String) : HandlerResult :=
  match urlParam with
  | none => .error 400 "URL parameter is required"
  | some p =>
      if p = "" then .error 400 "URL parameter is required"
      else if isValidUrl env.parseURL p = false then
        .error 400 "Invalid URL format. Must be a valid HTTP or HTTPS URL"
      else
        runCatch (tryBody env p)

/-! Concrete collaborator environments used to witness the theorems,
matching the scenarios exercised by `src/index.test.ts`. -/

/-- Concrete URL parser table covering the example URLs of the tests:
`https://example.com` parses with protocol `https:`, `ftp://example.com`
with protocol `ftp:`, anything else fails to parse. -/
def parseURLd (s : String) : Option URLRecord :=
  if s == "https://example.com" then some ⟨"https:", "example.com"⟩
  else if s == "ftp://example.com" then some ⟨"ftp:", "example.com"⟩
  else none

/-- A successful HTML fetch response, as in the happy-path test. -/
def respHtmlD : FetchResponse :=
  ⟨true, 200, "OK", some "text/html; charset=utf-8", "<h1>Test</h1><p>Content</p>"⟩

/-- Happy-path environment: HTML fetch succeeds, converter returns one
document with data `"# Test\n\nContent"`. -/
def envOkD : Env :=
  ⟨parseURLd, fun _ => .ok respHtmlD, fun _ => .ok (some [⟨"# Test\n\nContent"⟩])⟩

/-- Environment whose fetch resolves with a 404 upstream response. -/
def envNotFoundD : Env :=
  ⟨parseURLd, fun _ => .ok ⟨false, 404, "Not Found", none, ""⟩,
   fun _ => .ok (some [⟨"# Test"⟩])⟩

/-- Environment whose fetch resolves with no Content-Type header. -/
def envNoCtD : Env :=
  ⟨parseURLd, fun _ => .ok ⟨true, 200, "OK", none, "<h1>Test</h1>"⟩,
   fun _ => .ok (some [⟨"# Test"⟩])⟩

/-- Environment whose fetch resolves with an upper-cased Content-Type. -/
def envUpperCtD : Env :=
  ⟨parseURLd, fun _ => .ok ⟨true, 200, "OK", some "Text/HTML", "<h1>Test</h1>"⟩,
   fun _ => .ok (some [⟨"# Test"⟩])⟩

/-- A body one character over the 10 MiB limit. -/
def bigBody : String := String.mk (List.replicate (SIZE_LIMIT + 1) 'a')

/-- A successful fetch response carrying the oversized body. -/
def respLargeD : FetchResponse :=
  ⟨true, 200, "OK", some "text/html", bigBody⟩

/-- Environment whose fetch resolves with the oversized body. -/
def envLargeD : Env :=
  ⟨parseURLd, fun _ => .ok respLargeD, fun _ => .ok (some [⟨"# Test"⟩])⟩

/-- Environment whose converter returns an empty sequence. -/
def envEmptyMdD : Env :=
  ⟨parseURLd, fun _ => .ok respHtmlD, fun _ => .ok (some [])⟩

/-- Environment whose fetch rejects with `DOMException`/"AbortError". -/
def envAbortD : Env :=
  ⟨parseURLd, fun _ => .error ⟨true, "AbortError"⟩, fun _ => .ok (some [⟨"# Test"⟩])⟩

/-- Environment whose fetch rejects with a plain `Error` (not a
`DOMException`) whose name is nevertheless "AbortError". -/
def envPlainAbortD : Env :=
  ⟨parseURLd, fun _ => .error ⟨false, "AbortError"⟩, fun _ => .ok (some [⟨"# Test"⟩])⟩

/-- Length of the oversized body, computed by rewriting rather than by
evaluating the ten-megabyte list. -/
theorem bigBody_length : bigBody.length = SIZE_LIMIT + 1 := by
  simp [bigBody, String.length]

/-- C8: for every request in which the `url` query parameter is absent
or is the empty string, the result is status 400 with message
"URL parameter is required". -/
theorem missing_or_empty_url_param (env : Env) (u : Option String)
    (h : u = none ∨ u = some "") :
    handleHtml env u = .error 400 "URL parameter is required" := by
  rcases h with h | h <;> subst h <;> simp [handleHtml]

theorem missing_or_empty_url_param_witness :
    ((none : Option String) = none ∨ (none : Option String) = some "") ∧
    handleHtml envOkD none = .error 400 "URL parameter is required" :=
  ⟨Or.inl rfl, missing_or_empty_url_param envOkD none (Or.inl rfl)⟩

/-- C7: for every `url` parameter value that fails URL parsing or parses
to a URL whose scheme is neither http nor https, the result is status
400 with message "Invalid URL format. Must be a valid HTTP or HTTPS URL",
and the Fetcher (and converter) is never invoked: the outcome is
independent of the fetch and conversion oracles. -/
theorem invalid_url_rejected (env : Env) (p : String) (hp : p ≠ "")
    (hinv : env.parseURL p = none ∨
      ∃ u, env.parseURL p = some u ∧ u.protocol ≠ "http:" ∧ u.protocol ≠ "https:") :
    handleHtml env (some p) =
      .error 400 "Invalid URL format. Must be a valid HTTP or HTTPS URL" ∧
    ∀ f g md md2,
      handleHtml ⟨env.parseURL, f, md⟩ (some p) =
      handleHtml ⟨env.parseURL, g, md2⟩ (some p) := by
  have hval : isValidUrl env.parseURL p = false := by
    rcases hinv with h | ⟨u, hu, h1, h2⟩
    · simp [isValidUrl, h]
    · simp [isValidUrl, hu, h1, h2]
  refine ⟨by simp [handleHtml, hp, hval], ?_⟩
  intro f g md md2
  simp [handleHtml, hp, hval]

theorem invalid_url_rejected_witness :
    ("ftp://example.com" ≠ "" ∧
      (envOkD.parseURL "ftp://example.com" = none ∨
        ∃ u, envOkD.parseURL "ftp://example.com" = some u ∧
          u.protocol ≠ "http:" ∧ u.protocol ≠ "https:")) ∧
    handleHtml envOkD (some "ftp://example.com") =
      .error 400 "Invalid URL format. Must be a valid HTTP or HTTPS URL" :=
  ⟨⟨by decide, Or.inr ⟨⟨"ftp:", "example.com"⟩, by decide, by decide, by decide⟩⟩,
   (invalid_url_rejected envOkD "ftp://example.com" (by decide)
      (Or.inr ⟨⟨"ftp:", "example.com"⟩, by decide, by decide, by decide⟩)).1⟩

/-- C4: for every Fetcher response with `ok = false`, the result status
equals the upstream status code and the message is
`"Failed to fetch " ++ url ++ ": " ++ statusText`. -/
theorem upstream_error_mapped (env : Env) (p : String) (resp : FetchResponse)
    (hp : p ≠ "") (hv : isValidUrl env.parseURL p = true)
    (hf : env.fetch p = .ok resp) (hok : resp.ok = false) :
    handleHtml env (some p) =
      .error resp.status ("Failed to fetch " ++ p ++ ": " ++ resp.statusText) := by
  simp [handleHtml, hp, hv, tryBody, hf, afterFetch, hok, runCatch]

theorem upstream_error_mapped_witness :
    ("https://example.com" ≠ "" ∧
      isValidUrl envNotFoundD.parseURL "https://example.com" = true ∧
      envNotFoundD.fetch "https://example.com" = .ok ⟨false, 404, "Not Found", none, ""⟩ ∧
      (⟨false, 404, "Not Found", none, ""⟩ : FetchResponse).ok = false) ∧
    handleHtml envNotFoundD (some "https://example.com") =
      .error 404 "Failed to fetch https://example.com: Not Found" :=
  ⟨⟨by decide, by decide, rfl, rfl⟩,
   upstream_error_mapped envNotFoundD "https://example.com"
     ⟨false, 404, "Not Found", none, ""⟩ (by decide) (by decide) rfl rfl⟩

/-- C5: for every successful fetch (`ok = true`), an absent Content-Type
header, or one not containing "text/html", yields status 400 with
message "Only HTML content is supported", regardless of the body; a
Content-Type containing "text/html" passes the gate and proceeds to the
size stage, and in particular "text/html; charset=utf-8" contains
"text/html". -/
theorem content_type_gate (env : Env) (p : String) (resp : FetchResponse)
    (hp : p ≠ "") (hv : isValidUrl env.parseURL p = true)
    (hf : env.fetch p = .ok resp) (hok : resp.ok = true) :
    (resp.contentType = none →
      handleHtml env (some p) = .error 400 "Only HTML content is supported") ∧
    (∀ s, resp.contentType = some s → jsIncludes s "text/html" = false →
      handleHtml env (some p) = .error 400 "Only HTML content is supported") ∧
    (∀ s, resp.contentType = some s → jsIncludes s "text/html" = true →
      handleHtml env (some p) = runCatch (sizeStage env p s resp.bodyText)) ∧
    jsIncludes "text/html; charset=utf-8" "text/html" = true := by
  refine ⟨?_, ?_, ?_, by decide⟩
  · intro h
    simp [handleHtml, hp, hv, tryBody, hf, afterFetch, hok, h, runCatch]
  · intro s hs hns
    simp [handleHtml, hp, hv, tryBody, hf, afterFetch, hok, hs, hns, runCatch]
  · intro s hs hy
    simp [handleHtml, hp, hv, tryBody, hf, afterFetch, hok, hs, hy]

theorem content_type_gate_witness :
    ("https://example.com" ≠ "" ∧
      isValidUrl envNoCtD.parseURL "https://example.com" = true ∧
      envNoCtD.fetch "https://example.com" =
        .ok ⟨true, 200, "OK", none, "<h1>Test</h1>"⟩ ∧
      (⟨true, 200, "OK", none, "<h1>Test</h1>"⟩ : FetchResponse).ok = true) ∧
    handleHtml envNoCtD (some "https://example.com") =
      .error 400 "Only HTML content is supported" :=
  ⟨⟨by decide, by decide, rfl, rfl⟩,
   (content_type_gate envNoCtD "https://example.com"
     ⟨true, 200, "OK", none, "<h1>Test</h1>"⟩
     (by decide) (by decide) rfl rfl).1 rfl⟩

/-- C3: for every successfully fetched HTML response that reaches the
size gate, a decoded body text longer than 10,485,760 characters yields
status 413 with message "Content too large. Maximum size is 10MB", while
a body of exactly 10,485,760 characters passes the gate and proceeds to
the conversion stage. -/
theorem size_gate_boundary (env : Env) (p : String) (resp : FetchResponse)
    (ct : String) (hp : p ≠ "") (hv : isValidUrl env.parseURL p = true)
    (hf : env.fetch p = .ok resp) (hok : resp.ok = true)
    (hct : resp.contentType = some ct) (hhtml : jsIncludes ct "text/html" = true) :
    (resp.bodyText.length > SIZE_LIMIT →
      handleHtml env (some p) =
        .error 413 "Content too large. Maximum size is 10MB") ∧
    (resp.bodyText.length = SIZE_LIMIT →
      handleHtml env (some p) = runCatch (conversionStage env p ct resp.bodyText)) := by
  constructor
  · intro h
    simp [handleHtml, hp, hv, tryBody, hf, afterFetch, hok, hct, hhtml,
      sizeStage, h, runCatch]
  · intro h
    have hn : ¬ resp.bodyText.length > SIZE_LIMIT := by omega
    simp [handleHtml, hp, hv, tryBody, hf, afterFetch, hok, hct, hhtml,
      sizeStage, hn]

theorem size_gate_boundary_witness :
    ("https://example.com" ≠ "" ∧
      isValidUrl envLargeD.parseURL "https://example.com" = true ∧
      envLargeD.fetch "https://example.com" = .ok respLargeD ∧
      respLargeD.ok = true ∧
      respLargeD.contentType = some "text/html" ∧
      jsIncludes "text/html" "text/html" = true ∧
      respLargeD.bodyText.length > SIZE_LIMIT) ∧
    handleHtml envLargeD (some "https://example.com") =
      .error 413 "Content too large. Maximum size is 10MB" :=
  have hlen : respLargeD.bodyText.length > SIZE_LIMIT := by
    show bigBody.length > SIZE_LIMIT
    rw [bigBody_length]
    exact Nat.lt_succ_self _
  ⟨⟨by decide, by decide, rfl, rfl, rfl, by decide, hlen⟩,
   (size_gate_boundary envLargeD "https://example.com" respLargeD "text/html"
     (by decide) (by decide) rfl rfl rfl (by decide)).1 hlen⟩

/-- C6: for every request that passes the content-type and size gates,
a converter result that is null/undefined or the empty sequence yields
status 500 with message "Failed to convert HTML to Markdown". -/
theorem conversion_empty_or_null (env : Env) (p : String) (resp : FetchResponse)
    (ct : String) (hp : p ≠ "") (hv : isValidUrl env.parseURL p = true)
    (hf : env.fetch p = .ok resp) (hok : resp.ok = true)
    (hct : resp.contentType = some ct) (hhtml : jsIncludes ct "text/html" = true)
    (hsize : resp.bodyText.length ≤ SIZE_LIMIT)
    (hmd : env.toMarkdown [⟨docName env p, resp.bodyText, ct⟩] = .ok none ∨
           env.toMarkdown [⟨docName env p, resp.bodyText, ct⟩] = .ok (some [])) :
    handleHtml env (some p) = .error 500 "Failed to convert HTML to Markdown" := by
  have hn : ¬ resp.bodyText.length > SIZE_LIMIT := by omega
  rcases hmd with h | h <;>
    simp [handleHtml, hp, hv, tryBody, hf, afterFetch, hok, hct, hhtml,
      sizeStage, hn, conversionStage, h, runCatch]

theorem conversion_empty_or_null_witness :
    ("https://example.com" ≠ "" ∧
      isValidUrl envEmptyMdD.parseURL "https://example.com" = true ∧
      envEmptyMdD.fetch "https://example.com" = .ok respHtmlD ∧
      respHtmlD.ok = true ∧
      respHtmlD.contentType = some "text/html; charset=utf-8" ∧
      jsIncludes "text/html; charset=utf-8" "text/html" = true ∧
      respHtmlD.bodyText.length ≤ SIZE_LIMIT ∧
      envEmptyMdD.toMarkdown
        [⟨docName envEmptyMdD "https://example.com", respHtmlD.bodyText,
          "text/html; charset=utf-8"⟩] = .ok (some [])) ∧
    handleHtml envEmptyMdD (some "https://example.com") =
      .error 500 "Failed to convert HTML to Markdown" :=
  ⟨⟨by decide, by decide, rfl, rfl, rfl, by decide, by decide, rfl⟩,
   conversion_empty_or_null envEmptyMdD "https://example.com" respHtmlD
     "text/html; charset=utf-8" (by decide) (by decide) rfl rfl rfl
     (by decide) (by decide) (Or.inr rfl)⟩

/-- C1: for every request that passes all validation and gating stages
and every conversion output with at least one element, the handler
responds 200 with body exactly element 0's `data` (independent of any
other elements), Content-Type "text/plain; charset=UTF-8" and
Cache-Control "public, max-age=3600, s-maxage=86400". -/
theorem success_uses_first_element (env : Env) (p : String)
    (resp : FetchResponse) (ct : String) (d : ConversionDoc)
    (ds : List ConversionDoc)
    (hp : p ≠ "") (hv : isValidUrl env.parseURL p = true)
    (hf : env.fetch p = .ok resp) (hok : resp.ok = true)
    (hct : resp.contentType = some ct) (hhtml : jsIncludes ct "text/html" = true)
    (hsize : resp.bodyText.length ≤ SIZE_LIMIT)
    (hmd : env.toMarkdown [⟨docName env p, resp.bodyText, ct⟩] =
      .ok (some (d :: ds))) :
    handleHtml env (some p) =
      .success ⟨200, d.data, "text/plain; charset=UTF-8",
        "public, max-age=3600, s-maxage=86400"⟩ := by
  have hn : ¬ resp.bodyText.length > SIZE_LIMIT := by omega
  simp [handleHtml, hp, hv, tryBody, hf, afterFetch, hok, hct, hhtml,
    sizeStage, hn, conversionStage, hmd, cText, runCatch]

theorem success_uses_first_element_witness :
    ("https://example.com" ≠ "" ∧
      isValidUrl envOkD.parseURL "https://example.com" = true ∧
      envOkD.fetch "https://example.com" = .ok respHtmlD ∧
      respHtmlD.ok = true ∧
      respHtmlD.contentType = some "text/html; charset=utf-8" ∧
      jsIncludes "text/html; charset=utf-8" "text/html" = true ∧
      respHtmlD.bodyText.length ≤ SIZE_LIMIT ∧
      envOkD.toMarkdown
        [⟨docName envOkD "https://example.com", respHtmlD.bodyText,
          "text/html; charset=utf-8"⟩] =
        .ok (some (⟨"# Test\n\nContent"⟩ :: []))) ∧
    handleHtml envOkD (some "https://example.com") =
      .success ⟨200, "# Test\n\nContent", "text/plain; charset=UTF-8",
        "public, max-age=3600, s-maxage=86400"⟩ :=
  ⟨⟨by decide, by decide, rfl, rfl, rfl, by decide, by decide, rfl⟩,
   success_uses_first_element envOkD "https://example.com" respHtmlD
     "text/html; charset=utf-8" ⟨"# Test\n\nContent"⟩ []
     (by decide) (by decide) rfl rfl rfl (by decide) (by decide) rfl⟩

/-- C2: an abort signal (a `DOMException` named "AbortError") raised by
either the fetch await or the converter await yields status 504 with
message "Request timeout"; every other Fetcher rejection yields status
500 with message "Internal server error while processing request". -/
theorem fetch_rejection_mapping (env : Env) (p : String) (e : JSError)
    (hp : p ≠ "") (hv : isValidUrl env.parseURL p = true) :
    (env.fetch p = .error e → e.isDOMException = true → e.name = "AbortError" →
      handleHtml env (some p) = .error 504 "Request timeout") ∧
    (∀ resp ct, env.fetch p = .ok resp → resp.ok = true →
      resp.contentType = some ct → jsIncludes ct "text/html" = true →
      resp.bodyText.length ≤ SIZE_LIMIT →
      env.toMarkdown [⟨docName env p, resp.bodyText, ct⟩] = .error e →
      e.isDOMException = true → e.name = "AbortError" →
      handleHtml env (some p) = .error 504 "Request timeout") ∧
    (env.fetch p = .error e →
      ¬(e.isDOMException = true ∧ e.name = "AbortError") →
      handleHtml env (some p) =
        .error 500 "Internal server error while processing request") := by
  refine ⟨?_, ?_, ?_⟩
  · intro hf hdom hname
    simp [handleHtml, hp, hv, tryBody, hf, runCatch, hdom, hname]
  · intro resp ct hf hok hct hhtml hsize hmd hdom hname
    have hn : ¬ resp.bodyText.length > SIZE_LIMIT := by omega
    simp [handleHtml, hp, hv, tryBody, hf, afterFetch, hok, hct, hhtml,
      sizeStage, hn, conversionStage, hmd, runCatch, hdom, hname]
  · intro hf hne
    have hb : (e.isDOMException && e.name == "AbortError") = false := by
      by_cases hd : e.isDOMException = true
      · by_cases hn : e.name = "AbortError"
        · exact absurd ⟨hd, hn⟩ hne
        · simp [hn]
      · simp at hd
        simp [hd]
    simp [handleHtml, hp, hv, tryBody, hf, runCatch, hb]

theorem fetch_rejection_mapping_witness :
    ("https://example.com" ≠ "" ∧
      isValidUrl envAbortD.parseURL "https://example.com" = true ∧
      envAbortD.fetch "https://example.com" = .error ⟨true, "AbortError"⟩) ∧
    handleHtml envAbortD (some "https://example.com") =
      .error 504 "Request timeout" :=
  ⟨⟨by decide, by decide, rfl⟩,
   (fetch_rejection_mapping envAbortD "https://example.com" ⟨true, "AbortError"⟩
     (by decide) (by decide)).1 rfl rfl rfl⟩

/-- C9: the 504 classification requires a `DOMException` instance: a
rejection that is not a `DOMException` — even one whose name is
"AbortError" — yields status 500 with message
"Internal server error while processing request", on both the fetch and
the converter await. -/
theorem non_domexception_is_500 (env : Env) (p : String) (e : JSError)
    (hp : p ≠ "") (hv : isValidUrl env.parseURL p = true)
    (hnotdom : e.isDOMException = false) :
    (env.fetch p = .error e →
      handleHtml env (some p) =
        .error 500 "Internal server error while processing request") ∧
    (∀ resp ct, env.fetch p = .ok resp → resp.ok = true →
      resp.contentType = some ct → jsIncludes ct "text/html" = true →
      resp.bodyText.length ≤ SIZE_LIMIT →
      env.toMarkdown [⟨docName env p, resp.bodyText, ct⟩] = .error e →
      handleHtml env (some p) =
        .error 500 "Internal server error while processing request") := by
  constructor
  · intro hf
    simp [handleHtml, hp, hv, tryBody, hf, runCatch, hnotdom]
  · intro resp ct hf hok hct hhtml hsize hmd
    have hn : ¬ resp.bodyText.length > SIZE_LIMIT := by omega
    simp [handleHtml, hp, hv, tryBody, hf, afterFetch, hok, hct, hhtml,
      sizeStage, hn, conversionStage, hmd, runCatch, hnotdom]

theorem non_domexception_is_500_witness :
    ("https://example.com" ≠ "" ∧
      isValidUrl envPlainAbortD.parseURL "https://example.com" = true ∧
      (⟨false, "AbortError"⟩ : JSError).isDOMException = false ∧
      envPlainAbortD.fetch "https://example.com" = .error ⟨false, "AbortError"⟩) ∧
    handleHtml envPlainAbortD (some "https://example.com") =
      .error 500 "Internal server error while processing request" :=
  ⟨⟨by decide, by decide, rfl, rfl⟩,
   (non_domexception_is_500 envPlainAbortD "https://example.com"
     ⟨false, "AbortError"⟩ (by decide) (by decide) rfl).1 rfl⟩

/-- C10: the content-type substring check is case-sensitive: a
Content-Type value containing "text/html" only in a different letter
case (its lower-casing contains "text/html" but the value itself does
not) yields status 400 with message "Only HTML content is supported". -/
theorem content_type_case_sensitive (env : Env) (p : String)
    (resp : FetchResponse) (s : String)
    (hp : p ≠ "") (hv : isValidUrl env.parseURL p = true)
    (hf : env.fetch p = .ok resp) (hok : resp.ok = true)
    (hct : resp.contentType = some s)
    (_hlower : jsIncludes (lowerStr s) "text/html" = true)
    (hupper : jsIncludes s "text/html" = false) :
    handleHtml env (some p) = .error 400 "Only HTML content is supported" := by
  simp [handleHtml, hp, hv, tryBody, hf, afterFetch, hok, hct, hupper, runCatch]

theorem content_type_case_sensitive_witness :
    ("https://example.com" ≠ "" ∧
      isValidUrl envUpperCtD.parseURL "https://example.com" = true ∧
      envUpperCtD.fetch "https://example.com" =
        .ok ⟨true, 200, "OK", some "Text/HTML", "<h1>Test</h1>"⟩ ∧
      jsIncludes (lowerStr "Text/HTML") "text/html" = true ∧
      jsIncludes "Text/HTML" "text/html" = false) ∧
    handleHtml envUpperCtD (some "https://example.com") =
      .error 400 "Only HTML content is supported" :=
  ⟨⟨by decide, by decide, rfl, by decide, by decide⟩,
   content_type_case_sensitive envUpperCtD "https://example.com"
     ⟨true, 200, "OK", some "Text/HTML", "<h1>Test</h1>"⟩ "Text/HTML"
     (by decide) (by decide) rfl rfl rfl (by decide) (by decide)⟩

end Mdconvwk
